import Mathlib

/-!
# Progressify — shallow embedding of the authentication / CSRF / goals code

This file embeds the TypeScript source of the `progressify` repository
(`src/lib/auth.ts`, `src/lib/csrf.ts`, `src/lib/middleware.ts`, and the API
route handlers under `src/app/api`) as executable Lean definitions, and proves
properties of the spec against them.

Modelling conventions:
* JWTs (session and CSRF tokens) are modelled symbolically: a token is a
  payload together with the secret it was signed with; `jwt.verify(token, s)`
  succeeds exactly when the token was signed with `s`.  This is the standard
  symbolic-crypto abstraction of an unforgeable MAC.
* Clocks are explicit: every function that calls `Date.now()` in the source
  takes a `now : Int` parameter (milliseconds).  The session JWT expiry
  (`expiresIn: "3d"`, stored by the jsonwebtoken library in seconds) is kept
  in milliseconds as well; this is a pure unit change and preserves all
  comparisons because both sides of each comparison use the same unit.
* `bcrypt` hashing is modelled as an injective tagging function; hashes never
  appear in any response, so the claims do not depend on its details.
* Request bodies are modelled as already-parsed, well-typed records
  (`Option` fields for possibly-absent JSON keys).  The handler branches that
  reject non-string / non-integer JSON values with a 400 response, and the
  branches that catch JSON parse errors, are outside the model: every claim
  below quantifies over well-formed bodies (those rejection branches return a
  constant 400/500 error body and never touch the stores).
* JavaScript truthiness on strings (`!s`) is the emptiness test; on optional
  values, absence.  `x || d` on strings/numbers is modelled by `jsOrStr` /
  `jsOrInt` below, including the falsiness of `""` and `0`.
* The in-memory `users`, `goals` and `requestCounts` globals are threaded as
  explicit state (`List User`, `List Goal`, rate-counter association list).
-/

namespace Progressify

/-! ## Data model (src/types/index.ts, src/lib/auth.ts) -/

structure User where
  id : String
  email : String
  password : String
  createdAt : String
deriving DecidableEq

structure Goal where
  id : String
  userId : String
  title : String
  description : String
  totalSteps : Int
  completedSteps : Int
  color : String
  createdAt : String
deriving DecidableEq

/-- Payload of the session JWT (src/types/index.ts `JWTPayload`). -/
structure JWTPayload where
  userId : String
  iat : Int
  exp : Int
deriving DecidableEq

/-- Payload of the CSRF JWT (src/lib/csrf.ts `CSRFPayload`):
a random nonce (`token` field), the user id, and an expiry in ms. -/
structure CSRFPayload where
  token : String
  userId : String
  exp : Int
deriving DecidableEq

/-- A session JWT, symbolically: payload plus the secret used to sign it. -/
inductive SessionToken where
  | signed (payload : JWTPayload) (secret : String)
deriving DecidableEq

/-- A CSRF JWT, symbolically: payload plus the secret used to sign it. -/
inductive CsrfToken where
  | signed (payload : CSRFPayload) (secret : String)
deriving DecidableEq

/-! ## HTTP responses

Every body the embedded handlers produce is one of the finitely many JSON
shapes below; `JSON.stringify` of distinct shapes is distinct, so body
equality in the model coincides with byte equality of the real bodies. -/

inductive RespBody where
  /-- `{error, code}` -/
  | errBody (error code : String)
  /-- `{message, code}` -/
  | msgBody (message code : String)
  /-- `{error}` (older handlers without a `code` field) -/
  | plainErr (error : String)
  /-- `{message}` -/
  | plainMsg (message : String)
  /-- a serialized goal -/
  | goalBody (g : Goal)
  /-- a serialized goal list -/
  | goalListBody (gs : List Goal)
  /-- `{user: {id, email}, csrfToken}` (authHelpers.createAuthResponse) -/
  | authBody (userId email : String) (csrfToken : CsrfToken)
  /-- `{token, user: {id, email}}` (register route) -/
  | tokenUserBody (tok : SessionToken) (userId email : String)
  /-- `{message, deletedGoalId}` -/
  | deleteOkBody (message deletedGoalId : String)
  /-- `{error, code, retryAfter}` (rate limiter) -/
  | rateBody (error code : String) (retryAfter : Int)
  /-- JSON `null` -/
  | jsonNull
deriving DecidableEq

/-- A `Set-Cookie` entry on a response.  Cookie values are the symbolic
tokens; `httpOnly` and `maxAge` are the options the source sets. -/
inductive CookieVal where
  | session (t : SessionToken)
  | csrf (t : CsrfToken)
  | cleared
deriving DecidableEq

structure SetCookie where
  name : String
  val : CookieVal
  httpOnly : Bool
  maxAge : Int
deriving DecidableEq

structure HttpResponse where
  status : Nat
  body : RespBody
  headers : List (String × String)
  cookies : List SetCookie
deriving DecidableEq

def jsonHdr : List (String × String) := [("Content-Type", "application/json")]

/-- `{ error: message, code: "UNAUTHORIZED" }`, 401 (middleware.ts). -/
def unauthorizedResponse (message : String) : HttpResponse :=
  ⟨401, .errBody message "UNAUTHORIZED", jsonHdr, []⟩

/-- `{ error: "Internal server error", code: "INTERNAL_ERROR" }`, 500. -/
def serverErrorResponse : HttpResponse :=
  ⟨500, .errBody "Internal server error" "INTERNAL_ERROR", jsonHdr, []⟩

/-! ## JS helpers -/

/-- JS `o.f || d` for an optional string field (`""` is falsy). -/
def jsOrStr (o : Option String) (d : String) : String :=
  match o with
  | some s => if s = "" then d else s
  | none => d

/-- JS `o.f || d` for an optional number field (`0` is falsy). -/
def jsOrInt (o : Option Int) (d : Int) : Int :=
  match o with
  | some n => if n = 0 then d else n
  | none => d

/-- JS truthiness of an optional string (absent or `""` is falsy). -/
def jsTruthy (o : Option String) : Bool :=
  match o with
  | some s => s ≠ ""
  | none => false

/-- JS `String.prototype.toUpperCase` (character-wise, kernel-reducible). -/
def jsToUpper (s : String) : String := ⟨s.data.map Char.toUpper⟩

/-- JS `String.prototype.toLowerCase` (character-wise, kernel-reducible). -/
def jsToLower (s : String) : String := ⟨s.data.map Char.toLower⟩

/-- JS `String.prototype.trim`: strip whitespace from both ends. -/
def jsTrim (s : String) : String :=
  ⟨((s.data.dropWhile Char.isWhitespace).reverse.dropWhile
      Char.isWhitespace).reverse⟩

/-! ## Token service (src/lib/auth.ts authUtils, src/lib/csrf.ts csrf) -/

def threeDaysMs : Int := 3 * 24 * 60 * 60 * 1000

/-- `authUtils.generateToken`: `jwt.sign({userId}, JWT_SECRET, {expiresIn: "3d"})`. -/
def generateToken (jwtSecret : String) (now : Int) (userId : String) : SessionToken :=
  .signed ⟨userId, now, now + threeDaysMs⟩ jwtSecret

/-- `authUtils.verifyToken`: `jwt.verify(token, JWT_SECRET)`, which checks the
signature and the `exp` claim, returning `null` (here `none`) on failure. -/
def verifyToken (jwtSecret : String) (now : Int) : SessionToken → Option JWTPayload
  | .signed p s => if s = jwtSecret ∧ now < p.exp then some p else none

/-- `csrf.generateToken`: signs `{token: nonce, userId, exp: Date.now() + 3d}`.
The random 32-character nonce is a parameter. -/
def csrfGenerateToken (csrfSecret : String) (now : Int) (userId nonce : String) :
    CsrfToken :=
  .signed ⟨nonce, userId, now + threeDaysMs⟩ csrfSecret

/-- `jwt.verify(token, CSRF_SECRET)` for CSRF tokens.  The source stores `exp`
in milliseconds while the jsonwebtoken library reads the `exp` claim in
seconds, so the library-level expiry check never fires before the manual
`decoded.exp > Date.now()` check in `csrf.verifyToken` does; verification at
this level is therefore signature-only (extensionally faithful, see the
manual check below). -/
def jwtVerifyCsrf (csrfSecret : String) : CsrfToken → Option CSRFPayload
  | .signed p s => if s = csrfSecret then some p else none

/-- `csrf.verifyToken(token, userId)` (src/lib/csrf.ts lines 66–82):
decode, then require `decoded.userId === userId && decoded.exp > Date.now()
&& !!decoded.token && decoded.token.length > 0` (the last two conjuncts are
both the non-emptiness of the embedded nonce). -/
def csrfVerifyToken (csrfSecret : String) (now : Int) (tok : CsrfToken)
    (userId : String) : Bool :=
  match jwtVerifyCsrf csrfSecret tok with
  | none => false
  | some decoded =>
      decoded.userId = userId ∧ decoded.exp > now ∧ decoded.token.length > 0

/-! ## Requests and the CSRF middleware (src/lib/csrf.ts) -/

/-- The parts of a `NextRequest` the request gate reads: the method, the
`progressify-auth` cookie and the `x-csrf-token` header (each possibly
absent). -/
structure ApiRequest where
  method : String
  authCookie : Option SessionToken
  csrfHeader : Option CsrfToken
deriving DecidableEq

/-- `csrf.requiresCSRFProtection`. -/
def requiresCSRFProtection (method : String) : Bool :=
  ["POST", "PUT", "DELETE", "PATCH"].contains (jsToUpper method)

/-- `csrf.validateRequest`: header absent → false, else verify. -/
def csrfValidateRequest (csrfSecret : String) (req : ApiRequest)
    (userId : String) (now : Int) : Bool :=
  match req.csrfHeader with
  | none => false
  | some tok => csrfVerifyToken csrfSecret now tok userId

/-- `csrf.validateOrSkip`: safe methods skip validation. -/
def csrfValidateOrSkip (csrfSecret : String) (req : ApiRequest)
    (userId : String) (now : Int) : Bool :=
  if requiresCSRFProtection req.method then
    csrfValidateRequest csrfSecret req userId now
  else
    true

/-- The 403 response of `csrfMiddleware.createValidationResponse`. -/
def csrfInvalidResponse : HttpResponse :=
  ⟨403, .errBody "CSRF token validation failed" "CSRF_INVALID", jsonHdr, []⟩

/-- `csrfMiddleware.createValidationResponse`: `none` means validation passed
or was not needed. -/
def csrfCreateValidationResponse (isValid : Bool) (method : String) :
    Option HttpResponse :=
  if requiresCSRFProtection method then
    if isValid then none else some csrfInvalidResponse
  else
    none

/-- `csrfMiddleware.validate`. -/
def csrfMiddlewareValidate (csrfSecret : String) (req : ApiRequest)
    (userId : String) (now : Int) : Option HttpResponse :=
  csrfCreateValidationResponse (csrfValidateOrSkip csrfSecret req userId now)
    req.method

/-! ## Credential store lookups (src/lib/auth.ts authUtils) -/

/-- `authUtils.getUserByEmail`: exact, case-sensitive match. -/
def getUserByEmail (users : List User) (email : String) : Option User :=
  users.find? (fun u => u.email = email)

/-- `authUtils.getUserById`. -/
def getUserById (users : List User) (id : String) : Option User :=
  users.find? (fun u => u.id = id)

/-- Symbolic model of `bcrypt.hash(password, 10)`. -/
def bcryptHash (password : String) : String := "bcrypt$" ++ password

/-- `authUtils.createUser`: pushes a user with the email exactly as given
(no normalization).  `newId` models `Date.now().toString()` and
`createdAt` models `new Date().toISOString()`. -/
def createUser (users : List User) (email password newId createdAt : String) :
    User × List User :=
  let newUser : User := ⟨newId, email, bcryptHash password, createdAt⟩
  (newUser, users ++ [newUser])

/-- `authUtils.updateUserPassword`: re-hash the password of the first user
with the given id; returns whether a user was found. -/
def updateUserPassword (userId newPassword : String) :
    List User → Bool × List User
  | [] => (false, [])
  | u :: rest =>
      if u.id = userId then
        (true, { u with password := bcryptHash newPassword } :: rest)
      else
        let (found, rest') := updateUserPassword userId newPassword rest
        (found, u :: rest')

/-! ## Request gate (src/lib/middleware.ts) -/

/-- `withAuth` (middleware.ts lines 13–57): session cookie → verify JWT →
look up user → CSRF validation for protected methods → dispatch.  The wrapped
handler is abstracted as a function of the resolved user. -/
def withAuth (jwtSecret csrfSecret : String) (users : List User) (now : Int)
    (handler : User → HttpResponse) (req : ApiRequest) : HttpResponse :=
  match req.authCookie with
  | none => unauthorizedResponse "No authentication token provided"
  | some tok =>
    match verifyToken jwtSecret now tok with
    | none => unauthorizedResponse "Invalid or expired authentication token"
    | some decoded =>
      match getUserById users decoded.userId with
      | none => unauthorizedResponse "User not found"
      | some user =>
        match csrfMiddlewareValidate csrfSecret req user.id now with
        | some resp => resp
        | none => handler user

/-- `withAuthOnly` (middleware.ts lines 63–98): same as `withAuth` but with
no CSRF validation at all. -/
def withAuthOnly (jwtSecret : String) (users : List User) (now : Int)
    (handler : User → HttpResponse) (req : ApiRequest) : HttpResponse :=
  match req.authCookie with
  | none => unauthorizedResponse "No authentication token provided"
  | some tok =>
    match verifyToken jwtSecret now tok with
    | none => unauthorizedResponse "Invalid or expired authentication token"
    | some decoded =>
      match getUserById users decoded.userId with
      | none => unauthorizedResponse "User not found"
      | some user => handler user

/-! ## Goal store (src/lib/auth.ts goalUtils) -/

/-- `goalUtils.getGoalById`. -/
def getGoalById (goals : List Goal) (id : String) : Option Goal :=
  goals.find? (fun g => g.id = id)

/-- `goalUtils.getGoalsByUserId`. -/
def getGoalsByUserId (goals : List Goal) (userId : String) : List Goal :=
  goals.filter (fun g => g.userId = userId)

/-- The data passed to `goalUtils.createGoal` (`Partial<Goal>`). -/
structure CreateGoalData where
  title : Option String := none
  description : Option String := none
  totalSteps : Option Int := none
  color : Option String := none
deriving DecidableEq

/-- `goalUtils.createGoal`: pushes a goal with `completedSteps: 0` and the
JS `||` defaults of the source.  `newId` models `Date.now().toString()`. -/
def createGoal (goals : List Goal) (userId : String) (goalData : CreateGoalData)
    (newId createdAt : String) : Goal × List Goal :=
  let newGoal : Goal :=
    { id := newId
      userId := userId
      title := jsOrStr goalData.title ""
      description := jsOrStr goalData.description ""
      totalSteps := jsOrInt goalData.totalSteps 1
      color := jsOrStr goalData.color "#3B82F6"
      completedSteps := 0
      createdAt := createdAt }
  (newGoal, goals ++ [newGoal])

/-- A partial goal update (the `updates` object spread over the stored goal
by `goalUtils.updateGoal`); absent fields leave the goal unchanged. -/
structure GoalUpdates where
  title : Option String := none
  description : Option String := none
  completedSteps : Option Int := none
  totalSteps : Option Int := none
  color : Option String := none
deriving DecidableEq

/-- The JS spread `{...goal, ...updates}`. -/
def applyUpdates (g : Goal) (u : GoalUpdates) : Goal :=
  { g with
      title := u.title.getD g.title
      description := u.description.getD g.description
      completedSteps := u.completedSteps.getD g.completedSteps
      totalSteps := u.totalSteps.getD g.totalSteps
      color := u.color.getD g.color }

/-- `goalUtils.updateGoal`: replace the goal at the first index with a
matching id by the spread merge; `none` if no goal matches. -/
def updateGoal (goalId : String) (u : GoalUpdates) :
    List Goal → Option Goal × List Goal
  | [] => (none, [])
  | g :: rest =>
      if g.id = goalId then
        (some (applyUpdates g u), applyUpdates g u :: rest)
      else
        let (r, rest') := updateGoal goalId u rest
        (r, g :: rest')

/-- `goalUtils.deleteGoal`: splice out the goal at the first index with a
matching id; returns whether one was found. -/
def deleteGoal (goalId : String) : List Goal → Bool × List Goal
  | [] => (false, [])
  | g :: rest =>
      if g.id = goalId then
        (true, rest)
      else
        let (found, rest') := deleteGoal goalId rest
        (found, g :: rest')

/-! ## Validation helpers used by the goal routes -/

/-- The regex `/^#([A-Fa-f0-9]{6}|[A-Fa-f0-9]{3})$/`. -/
def isHexColor (s : String) : Bool :=
  match s.toList with
  | '#' :: rest =>
      (rest.length = 6 ∨ rest.length = 3) ∧
        rest.all (fun c => c.isDigit ∨ ('a' ≤ c ∧ c ≤ 'f') ∨ ('A' ≤ c ∧ c ≤ 'F'))
  | _ => false

/-- A 400 `{error, code}` response. -/
def badRequest (error code : String) : HttpResponse :=
  ⟨400, .errBody error code, jsonHdr, []⟩

/-! ## POST /api/goals (src/app/api/goals/route.ts createGoalHandler)

The request body; `completedSteps` can be supplied by the client but is
never read by the handler or by `createGoal`. -/

structure CreateGoalBody where
  title : Option String := none
  description : Option String := none
  totalSteps : Option Int := none
  color : Option String := none
  completedSteps : Option Int := none
deriving DecidableEq

/-- `createGoalHandler`: validates title / totalSteps / description / color
then calls `goalUtils.createGoal` with the sanitized fields (and nothing
else).  Returns the response and the updated goal store. -/
def createGoalHandler (user : User) (goalData : CreateGoalBody)
    (goals : List Goal) (newId createdAt : String) : HttpResponse × List Goal :=
  if ¬ jsTruthy goalData.title then
    (badRequest "Goal title is required and must be a string" "MISSING_TITLE",
      goals)
  else
    match goalData.totalSteps with
    | none =>
        (badRequest "Total steps is required and must be a number"
          "MISSING_TOTAL_STEPS", goals)
    | some n =>
      if n = 0 then
        (badRequest "Total steps is required and must be a number"
          "MISSING_TOTAL_STEPS", goals)
      else if n < 1 ∨ n > 365 then
        (badRequest "Total steps must be between 1 and 365"
          "INVALID_TOTAL_STEPS", goals)
      else
        let sanitizedTitle := jsTrim (goalData.title.getD "")
        if sanitizedTitle.length = 0 then
          (badRequest "Goal title cannot be empty" "EMPTY_TITLE", goals)
        else if sanitizedTitle.length > 100 then
          (badRequest "Goal title cannot exceed 100 characters"
            "TITLE_TOO_LONG", goals)
        else
          let sanitizedDescription :=
            if jsTruthy goalData.description then jsTrim (goalData.description.getD "")
            else ""
          if sanitizedDescription.length > 500 then
            (badRequest "Goal description cannot exceed 500 characters"
              "DESCRIPTION_TOO_LONG", goals)
          else
            let sanitizedColor :=
              if jsTruthy goalData.color ∧ isHexColor (goalData.color.getD "") then
                goalData.color.getD ""
              else "#3B82F6"
            let result := createGoal goals user.id
              { title := some sanitizedTitle
                description := some sanitizedDescription
                totalSteps := some n
                color := some sanitizedColor } newId createdAt
            (⟨201, .goalBody result.1, jsonHdr, []⟩, result.2)

/-! ## PUT/DELETE /api/goals/[id], validated variant
(src/unnamed/part_001: updateGoalHandler / deleteGoalHandler) -/

/-- The parsed JSON body of a goal update request.  Non-string / non-integer
values for these keys are rejected with constant 400 responses in the source
(`INVALID_TITLE_TYPE`, `INVALID_COMPLETED_STEPS`, ...); the model quantifies
over well-typed bodies. -/
structure UpdateBody where
  title : Option String := none
  description : Option String := none
  completedSteps : Option Int := none
  totalSteps : Option Int := none
  color : Option String := none
deriving DecidableEq

/-- Title validation block of `updateGoalHandler`. -/
def checkTitle (b : UpdateBody) (s : GoalUpdates) :
    Except HttpResponse GoalUpdates :=
  match b.title with
  | none => .ok s
  | some t =>
      let sanitizedTitle := jsTrim t
      if sanitizedTitle.length = 0 then
        .error (badRequest "Goal title cannot be empty" "EMPTY_TITLE")
      else if sanitizedTitle.length > 100 then
        .error (badRequest "Goal title cannot exceed 100 characters"
          "TITLE_TOO_LONG")
      else .ok { s with title := some sanitizedTitle }

/-- Description validation block of `updateGoalHandler`. -/
def checkDescription (b : UpdateBody) (s : GoalUpdates) :
    Except HttpResponse GoalUpdates :=
  match b.description with
  | none => .ok s
  | some d =>
      let sanitizedDescription := jsTrim d
      if sanitizedDescription.length > 500 then
        .error (badRequest "Goal description cannot exceed 500 characters"
          "DESCRIPTION_TOO_LONG")
      else .ok { s with description := some sanitizedDescription }

/-- completedSteps validation block of `updateGoalHandler`: the new value is
compared against the EXISTING goal's `totalSteps`. -/
def checkCompleted (existingGoal : Goal) (b : UpdateBody) (s : GoalUpdates) :
    Except HttpResponse GoalUpdates :=
  match b.completedSteps with
  | none => .ok s
  | some c =>
      if c < 0 then
        .error (badRequest "Completed steps cannot be negative"
          "NEGATIVE_COMPLETED_STEPS")
      else if c > existingGoal.totalSteps then
        .error (badRequest
          ("Completed steps cannot exceed total steps (" ++
            toString existingGoal.totalSteps ++ ")")
          "COMPLETED_EXCEEDS_TOTAL")
      else .ok { s with completedSteps := some c }

/-- totalSteps validation block of `updateGoalHandler`.  Note the clamp
compares the new total only against the EXISTING goal's `completedSteps`
(`updates.totalSteps < existingGoal.completedSteps`), not against a
`completedSteps` value set earlier in the same request. -/
def checkTotal (existingGoal : Goal) (b : UpdateBody) (s : GoalUpdates) :
    Except HttpResponse GoalUpdates :=
  match b.totalSteps with
  | none => .ok s
  | some t =>
      if t < 1 ∨ t > 365 then
        .error (badRequest "Total steps must be between 1 and 365"
          "TOTAL_STEPS_OUT_OF_RANGE")
      else
        let s' := if t < existingGoal.completedSteps then
            { s with completedSteps := some t }
          else s
        .ok { s' with totalSteps := some t }

/-- Color validation block of `updateGoalHandler`. -/
def checkColor (b : UpdateBody) (s : GoalUpdates) :
    Except HttpResponse GoalUpdates :=
  match b.color with
  | none => .ok s
  | some c =>
      if ¬ isHexColor c then
        .error (badRequest "Goal color must be a valid hex color (e.g., #3B82F6)"
          "INVALID_COLOR_FORMAT")
      else .ok { s with color := some c }

/-- The sequential validation of `updateGoalHandler` building
`sanitizedUpdates` (title, description, completedSteps, totalSteps, color, in
source order). -/
def sanitizeUpdates (existingGoal : Goal) (b : UpdateBody) :
    Except HttpResponse GoalUpdates :=
  checkTitle b {} >>= checkDescription b >>= checkCompleted existingGoal b >>=
    checkTotal existingGoal b >>= checkColor b

/-- `updateGoalHandler` (src/unnamed/part_001 lines 84–390).  The goal id is
the last URL path segment; ownership is checked before the body is read. -/
def updateGoalHandler (user : User) (goalId : String) (b : UpdateBody)
    (goals : List Goal) : HttpResponse × List Goal :=
  if goalId = "" ∨ goalId = "route.ts" then
    (badRequest "Goal ID is required" "MISSING_GOAL_ID", goals)
  else
    match getGoalById goals goalId with
    | none => (⟨404, .errBody "Goal not found" "GOAL_NOT_FOUND", jsonHdr, []⟩, goals)
    | some existingGoal =>
      if existingGoal.userId ≠ user.id then
        (⟨403, .errBody "Access denied. You can only update your own goals."
          "ACCESS_DENIED", jsonHdr, []⟩, goals)
      else
        match sanitizeUpdates existingGoal b with
        | .error resp => (resp, goals)
        | .ok sanitized =>
          if sanitized = ({} : GoalUpdates) then
            (badRequest "No valid updates provided" "NO_UPDATES", goals)
          else
            match updateGoal goalId sanitized goals with
            | (none, goals') =>
                (⟨500, .errBody "Failed to update goal" "UPDATE_FAILED",
                  jsonHdr, []⟩, goals')
            | (some updatedGoal, goals') =>
                (⟨200, .goalBody updatedGoal, jsonHdr, []⟩, goals')

/-- `deleteGoalHandler` (src/unnamed/part_001 lines 397–483). -/
def deleteGoalHandler (user : User) (goalId : String) (goals : List Goal) :
    HttpResponse × List Goal :=
  if goalId = "" ∨ goalId = "route.ts" then
    (badRequest "Goal ID is required" "MISSING_GOAL_ID", goals)
  else
    match getGoalById goals goalId with
    | none => (⟨404, .errBody "Goal not found" "GOAL_NOT_FOUND", jsonHdr, []⟩, goals)
    | some existingGoal =>
      if existingGoal.userId ≠ user.id then
        (⟨403, .errBody "Access denied. You can only delete your own goals."
          "ACCESS_DENIED", jsonHdr, []⟩, goals)
      else
        match deleteGoal goalId goals with
        | (false, goals') =>
            (⟨500, .errBody "Failed to delete goal" "DELETE_FAILED",
              jsonHdr, []⟩, goals')
        | (true, goals') =>
            (⟨200, .deleteOkBody "Goal deleted successfully" goalId,
              jsonHdr, []⟩, goals')

/-! ## PUT/DELETE /api/goals/[id], params-based variant
(second document in src/app/api/goals/route.ts: handlers taking
`{ params: { id } }` with no field validation) -/

/-- The raw parsed body passed straight to `goalUtils.updateGoal` by the
params-based PUT (no sanitization). -/
def rawUpdates (b : UpdateBody) : GoalUpdates :=
  { title := b.title
    description := b.description
    completedSteps := b.completedSteps
    totalSteps := b.totalSteps
    color := b.color }

/-- Params-based `PUT` on /api/goals/[id]: missing goal and foreign goal both
yield 404 `{error: "Goal not found"}`; otherwise the raw updates are merged
with no validation or clamping. -/
def updateGoalPUTParams (user : User) (paramsId : String) (b : UpdateBody)
    (goals : List Goal) : HttpResponse × List Goal :=
  match getGoalById goals paramsId with
  | none => (⟨404, .plainErr "Goal not found", jsonHdr, []⟩, goals)
  | some goal =>
    if goal.userId ≠ user.id then
      (⟨404, .plainErr "Goal not found", jsonHdr, []⟩, goals)
    else
      match updateGoal paramsId (rawUpdates b) goals with
      | (some updatedGoal, goals') =>
          (⟨200, .goalBody updatedGoal, jsonHdr, []⟩, goals')
      | (none, goals') => (⟨200, .jsonNull, jsonHdr, []⟩, goals')

/-- Params-based `DELETE` on /api/goals/[id]. -/
def deleteGoalDELETEParams (user : User) (paramsId : String)
    (goals : List Goal) : HttpResponse × List Goal :=
  match getGoalById goals paramsId with
  | none => (⟨404, .plainErr "Goal not found", jsonHdr, []⟩, goals)
  | some goal =>
    if goal.userId ≠ user.id then
      (⟨404, .plainErr "Goal not found", jsonHdr, []⟩, goals)
    else
      let (_, goals') := deleteGoal paramsId goals
      (⟨200, .plainMsg "Goal deleted successfully", jsonHdr, []⟩, goals')

/-! ## Auth responses (src/lib/auth.ts authHelpers) -/

def AUTH_COOKIE_NAME : String := "progressify-auth"

def CSRF_COOKIE_NAME : String := "progressify-csrf"

/-- `authHelpers.createAuthResponse`: issues session + CSRF tokens, returns
`{user: {id, email}, csrfToken}` (status 200, the `NextResponse.json`
default) and sets both cookies (session httpOnly, CSRF script-readable,
both maxAge 3 days = 259200s). -/
def createAuthResponse (jwtSecret csrfSecret : String) (now : Int)
    (user : User) (nonce : String) : HttpResponse :=
  let token := generateToken jwtSecret now user.id
  let csrfToken := csrfGenerateToken csrfSecret now user.id nonce
  ⟨200, .authBody user.id user.email csrfToken, jsonHdr,
    [⟨AUTH_COOKIE_NAME, .session token, true, 259200⟩,
     ⟨CSRF_COOKIE_NAME, .csrf csrfToken, false, 259200⟩]⟩

/-! ## POST /api/auth/register (src/app/api/auth/register/route.ts) -/

/-- `POST` of the register route (lines 4–45): reject falsy fields, reject an
exact-match existing email, create the user with the email exactly as given,
and return `{token, user}` with status 201.  No cookie is set and no CSRF
token is issued. -/
def registerPOST (jwtSecret : String) (now : Int) (users : List User)
    (email password : Option String) (newId createdAt : String) :
    HttpResponse × List User :=
  if ¬ jsTruthy email ∨ ¬ jsTruthy password then
    (⟨400, .plainErr "Email and password are required", jsonHdr, []⟩, users)
  else
    match getUserByEmail users (email.getD "") with
    | some _ => (⟨400, .plainErr "User already exists", jsonHdr, []⟩, users)
    | none =>
      let (user, users') :=
        createUser users (email.getD "") (password.getD "") newId createdAt
      let token := generateToken jwtSecret now user.id
      (⟨201, .tokenUserBody token user.id user.email, jsonHdr, []⟩, users')

/-! ## POST /api/auth/reset-password -/

/-- Split a character list at the FIRST occurrence of `c`; `none` when `c`
does not occur. -/
def splitAtChar (c : Char) : List Char → List Char × Option (List Char)
  | [] => ([], none)
  | x :: xs =>
      if x = c then ([], some xs)
      else
        let (a, b) := splitAtChar c xs
        (x :: a, b)

/-- Model of the JS regex `/^[^\s@]+@[^\s@]+\.[^\s@]+$/`: the string is
`A@B` where `A` is a nonempty run of non-whitespace characters (it contains
no at-sign, being everything before the first one), and `B` is free of
whitespace and at-signs and contains a dot that is neither its first nor its
last character (so the dot has a nonempty `[^\s@]+` run on each side). -/
def emailRegexTest (s : String) : Bool :=
  match splitAtChar '@' s.data with
  | (a, some b) =>
      a ≠ [] ∧ a.all (fun c => ¬ c.isWhitespace) ∧
        b.all (fun c => ¬ c.isWhitespace ∧ c ≠ '@') ∧
        ((b.drop 1).dropLast.contains '.')
  | (_, none) => false

/-- `resetPasswordHandler` (src/app/api/auth/reset-password/route.ts lines
16–184).  Normalizes the email, validates the password, and answers 200 with
the SAME message but code `RESET_INITIATED` when the email is unknown and
code `RESET_COMPLETED` when the password was actually reset.
(The `INVALID_PASSWORD_TYPE` branch guards non-string JSON values, outside
the model.) -/
def resetPasswordHandler (users : List User) (email newPassword : Option String) :
    HttpResponse × List User :=
  if ¬ jsTruthy email ∨ ¬ jsTruthy newPassword then
    (badRequest "Email and new password are required" "MISSING_CREDENTIALS",
      users)
  else
    let sanitizedEmail := jsTrim (jsToLower (email.getD ""))
    if ¬ emailRegexTest sanitizedEmail then
      (badRequest "Please enter a valid email address" "INVALID_EMAIL_FORMAT",
        users)
    else
      let p := newPassword.getD ""
      if p.length < 6 then
        (badRequest "Password must be at least 6 characters long"
          "PASSWORD_TOO_SHORT", users)
      else if p.length > 128 then
        (badRequest "Password cannot exceed 128 characters"
          "PASSWORD_TOO_LONG", users)
      else if ¬ (p.toList.any Char.isAlpha ∧ p.toList.any Char.isDigit) then
        (badRequest "Password must contain at least one letter and one number"
          "PASSWORD_TOO_WEAK", users)
      else
        match getUserByEmail users sanitizedEmail with
        | none =>
            (⟨200, .msgBody
              "If an account with this email exists, the password has been reset successfully."
              "RESET_INITIATED", jsonHdr, []⟩, users)
        | some user =>
            match updateUserPassword user.id p users with
            | (false, users') =>
                (⟨500, .errBody "Failed to reset password. Please try again."
                  "RESET_FAILED", jsonHdr, []⟩, users')
            | (true, users') =>
                (⟨200, .msgBody
                  "If an account with this email exists, the password has been reset successfully."
                  "RESET_COMPLETED", jsonHdr, []⟩, users')

/-- The older reset-password `POST` (src/unnamed/part_002): looks the email
up verbatim and answers 404 `{error: "User not found"}` when it is unknown,
200 `{message: "Password reset successfully"}` when it exists. -/
def resetPasswordPOSTLegacy (users : List User)
    (email newPassword : Option String) : HttpResponse × List User :=
  if ¬ jsTruthy email ∨ ¬ jsTruthy newPassword then
    (⟨400, .plainErr "Email and new password are required", jsonHdr, []⟩, users)
  else
    match getUserByEmail users (email.getD "") with
    | none => (⟨404, .plainErr "User not found", jsonHdr, []⟩, users)
    | some user =>
        let (_, users') :=
          updateUserPassword user.id (newPassword.getD "") users
        (⟨200, .plainMsg "Password reset successfully", jsonHdr, []⟩, users')

/-! ## Rate limiter (src/lib/middleware.ts withRateLimit)

The `requestCounts` map is an association list; the clock and client address
are explicit.  The login route wraps its handler in
`withRateLimit(5, 5 * 60 * 1000)`. -/

structure RateCounter where
  count : Nat
  resetTime : Int
deriving DecidableEq

abbrev RateState := List (String × RateCounter)

/-- The cleanup loop: drop every entry with `resetTime < now`. -/
def cleanupExpired (now : Int) (st : RateState) : RateState :=
  st.filter (fun e => ¬ (e.2.resetTime < now))

def lookupCounter (ip : String) : RateState → Option RateCounter
  | [] => none
  | e :: rest => if e.1 = ip then some e.2 else lookupCounter ip rest

/-- JS `Map.set`: replace the entry for the key, or add one. -/
def setCounter (ip : String) (c : RateCounter) : RateState → RateState
  | [] => [(ip, c)]
  | e :: rest => if e.1 = ip then (ip, c) :: rest else e :: setCounter ip c rest

/-- `Math.ceil(d / 1000)` for `d ≥ 0`. -/
def ceilDivThousand (d : Int) : Int := (d + 999) / 1000

/-- The 429 response of `withRateLimit` (`Math.max(0, max - count)` is the
truncated `Nat` subtraction). -/
def rateLimitedResponse (maxRequests : Nat) (counter : RateCounter)
    (now : Int) : HttpResponse :=
  ⟨429,
    .rateBody "Too many requests" "RATE_LIMIT_EXCEEDED"
      (ceilDivThousand (counter.resetTime - now)),
    [("Content-Type", "application/json"),
     ("Retry-After", toString (ceilDivThousand (counter.resetTime - now))),
     ("X-RateLimit-Limit", toString maxRequests),
     ("X-RateLimit-Remaining", toString (maxRequests - counter.count)),
     ("X-RateLimit-Reset", toString counter.resetTime)], []⟩

/-- The `X-RateLimit-*` headers added to a passed-through response
(`headers.set` modelled as append; the wrapped handlers never set these
keys themselves). -/
def addRateHeaders (maxRequests : Nat) (counter : RateCounter)
    (resp : HttpResponse) : HttpResponse :=
  { resp with
      headers := resp.headers ++
        [("X-RateLimit-Limit", toString maxRequests),
         ("X-RateLimit-Remaining", toString (maxRequests - counter.count)),
         ("X-RateLimit-Reset", toString counter.resetTime)] }

/-- One request through `withRateLimit(maxRequests, windowMs)`:
cleanup, fetch-or-create the counter, reject with 429 when
`count >= maxRequests && resetTime > now`, otherwise increment and invoke
the wrapped handler (whose response is the `handlerResp` parameter: the
handler is invoked exactly when `handlerResp` can influence the result). -/
def rateLimitStep (maxRequests : Nat) (windowMs : Int) (ip : String)
    (now : Int) (handlerResp : HttpResponse) (st : RateState) :
    HttpResponse × RateState :=
  let st1 := cleanupExpired now st
  let counter := (lookupCounter ip st1).getD ⟨0, now + windowMs⟩
  if maxRequests ≤ counter.count ∧ now < counter.resetTime then
    (rateLimitedResponse maxRequests counter now, st1)
  else
    let counter' : RateCounter := ⟨counter.count + 1, counter.resetTime⟩
    (addRateHeaders maxRequests counter' handlerResp, setCounter ip counter' st1)

/-! ## Concrete fixtures (the seeded demo user of src/lib/auth.ts) -/

def demoUser : User :=
  ⟨"1", "demo@example.com",
    "$2a$10$92IXUNpkjO0rOQ5byMi.Ye4oKoEa3Ro9llC/.og/at2.uheWG/igi",
    "2025-01-01T00:00:00.000Z"⟩

def demoUsers : List User := [demoUser]

/-! ## Theorems -/

/-- Claim C2 (code bug evaluation): on a goal with `totalSteps = 100`,
`completedSteps = 23`, the single PUT body `{completedSteps: 50,
totalSteps: 30}` passes every validation of `updateGoalHandler` (50 is
compared against the OLD total 100, and the clamp compares 30 only against
the OLD completed count 23), so the handler answers 200 and stores a goal
with `completedSteps = 50 > 30 = totalSteps`, violating the
`0 ≤ completedSteps ≤ totalSteps` invariant the spec states for every
update. -/
theorem C2_clamp_bug_eval :
    updateGoalHandler ⟨"1", "demo@example.com", "h", "t0"⟩ "1"
        { completedSteps := some 50, totalSteps := some 30 }
        [⟨"1", "1", "Daily Exercise", "", 100, 23, "#10B981", "t0"⟩] =
      (⟨200, .goalBody ⟨"1", "1", "Daily Exercise", "", 30, 50, "#10B981", "t0"⟩,
        jsonHdr, []⟩,
       [⟨"1", "1", "Daily Exercise", "", 30, 50, "#10B981", "t0"⟩]) ∧
    ¬ ((Goal.mk "1" "1" "Daily Exercise" "" 30 50 "#10B981" "t0").completedSteps ≤
        (Goal.mk "1" "1" "Daily Exercise" "" 30 50 "#10B981" "t0").totalSteps) := by
  decide

/-- Claim C3 (code bug evaluation): for the fixed well-formed body
`{email: "user@example.com", newPassword: "abc123"}`, `resetPasswordHandler`
answers 200 in both worlds but with body code `RESET_COMPLETED` when the
email exists and `RESET_INITIATED` when it does not — the bodies differ, so
the response reveals whether the email exists (contradicting the source's
own comment "Return success message (same as when user doesn't exist)").
The older variant in src/unnamed/part_002 even differs in status:
404 vs 200. -/
theorem C3_reset_response_distinguishes :
    ((resetPasswordHandler [⟨"9", "user@example.com", "h", "t"⟩]
        (some "user@example.com") (some "abc123")).1.status = 200) ∧
    ((resetPasswordHandler [] (some "user@example.com") (some "abc123")).1.status
      = 200) ∧
    (resetPasswordHandler [⟨"9", "user@example.com", "h", "t"⟩]
        (some "user@example.com") (some "abc123")).1.body ≠
      (resetPasswordHandler [] (some "user@example.com") (some "abc123")).1.body ∧
    ((resetPasswordPOSTLegacy [⟨"9", "user@example.com", "h", "t"⟩]
        (some "user@example.com") (some "abc123")).1.status = 200) ∧
    ((resetPasswordPOSTLegacy [] (some "user@example.com") (some "abc123")).1.status
      = 404) := by
  decide

/-- Claim C9 (code bug evaluation): with the seeded store (which holds
`demo@example.com`), registering `Demo@example.com` succeeds (the duplicate
check is an exact string match) and stores the email verbatim, so the store
then holds two users whose emails are equal up to case and a stored email
that is not lower-cased; the login lookup (which lower-cases its argument,
login route line 49) then resolves `Demo@example.com` to the ORIGINAL demo
user, so the new account can never be authenticated. -/
theorem C9_register_case_sensitive_eval :
    ((registerPOST "jwt-secret" 0 demoUsers (some "Demo@example.com")
        (some "secret1") "2" "t2").1.status = 201) ∧
    ((registerPOST "jwt-secret" 0 demoUsers (some "Demo@example.com")
        (some "secret1") "2" "t2").2.map (fun u => u.email) =
      ["demo@example.com", "Demo@example.com"]) ∧
    (jsToLower "Demo@example.com" = "demo@example.com") ∧
    ("Demo@example.com" ≠ "demo@example.com") ∧
    (getUserByEmail
        (registerPOST "jwt-secret" 0 demoUsers (some "Demo@example.com")
          (some "secret1") "2" "t2").2
        (jsTrim (jsToLower "Demo@example.com")) = some demoUser) := by
  decide

/-- Claim C7 (counterexample): a token signed with the CSRF secret whose
payload carries an empty nonce satisfies all three conditions of the claim
(signature verifies, embedded user id matches, expiry strictly in the
future), yet `csrf.verifyToken` returns `false`, because the source also
requires `decoded.token.length > 0`. -/
theorem C7_counterexample :
    (jwtVerifyCsrf "csrf-secret" (.signed ⟨"", "u1", 5⟩ "csrf-secret") =
      some ⟨"", "u1", 5⟩) ∧
    ((CSRFPayload.mk "" "u1" 5).userId = "u1") ∧
    ((0 : Int) < (CSRFPayload.mk "" "u1" 5).exp) ∧
    (csrfVerifyToken "csrf-secret" 0 (.signed ⟨"", "u1", 5⟩ "csrf-secret") "u1"
      = false) := by
  decide

/-- Claim C6 (counterexample): a successful register call answers 201 with a
`{token, user}` body — no `csrfToken` field — and sets NO cookies at all,
refuting the claim that it returns an anti-forgery token and sets the
session and anti-forgery cookies. -/
theorem C6_counterexample :
    ((registerPOST "jwt-secret" 0 [] (some "new@example.com") (some "secret123")
        "42" "t0").1.status = 201) ∧
    ((registerPOST "jwt-secret" 0 [] (some "new@example.com") (some "secret123")
        "42" "t0").1.cookies = []) ∧
    ((registerPOST "jwt-secret" 0 [] (some "new@example.com") (some "secret123")
        "42" "t0").1.body =
      .tokenUserBody (.signed ⟨"42", 0, 0 + threeDaysMs⟩ "jwt-secret") "42"
        "new@example.com") := by
  decide

/-- Claim C1 (counterexample): a mutating request with NO anti-forgery header
and an invalid session (no auth cookie) is answered 401 UNAUTHORIZED, not
403 CSRF_INVALID: the gate checks the session first, so the 403 is NOT
produced "regardless of session validity". -/
theorem C1_counterexample :
    ((withAuth "jwt-secret" "csrf-secret" demoUsers 0 (fun _ => serverErrorResponse)
        ⟨"POST", none, none⟩).status = 401) ∧
    (withAuth "jwt-secret" "csrf-secret" demoUsers 0 (fun _ => serverErrorResponse)
        ⟨"POST", none, none⟩ ≠ csrfInvalidResponse) := by
  decide

/-- Claim C7 (amended): `csrf.verifyToken(token, userId)` returns true if and
only if the token's signature verifies under the CSRF secret, its embedded
user id equals `userId`, its expiry lies strictly in the future, AND its
embedded random nonce is non-empty. -/
theorem C7_verify_token_iff (csrfSecret : String) (now : Int) (p : CSRFPayload)
    (s userId : String) :
    csrfVerifyToken csrfSecret now (.signed p s) userId = true ↔
      (s = csrfSecret ∧ p.userId = userId ∧ now < p.exp ∧ 0 < p.token.length) := by
  by_cases h : s = csrfSecret
  · subst h
    simp [csrfVerifyToken, jwtVerifyCsrf, GT.gt, and_assoc]
  · simp [csrfVerifyToken, jwtVerifyCsrf, h]

/-- Claim C1 (amended): for a mutating request whose session IS valid
(auth cookie present, JWT verifies, user found), a missing or invalid
anti-forgery header — one that fails signature verification, is expired, or
carries a different user id, all of which make `csrf.validateRequest` false —
yields exactly the 403 CSRF_INVALID response, for every wrapped handler.
(When the session is invalid the gate answers 401 first; see the
counterexample.) -/
theorem C1_csrf_invalid_on_valid_session (jwtSecret csrfSecret : String)
    (users : List User) (now : Int) (handler : User → HttpResponse)
    (req : ApiRequest) (tok : SessionToken) (decoded : JWTPayload) (user : User)
    (hcookie : req.authCookie = some tok)
    (hver : verifyToken jwtSecret now tok = some decoded)
    (huser : getUserById users decoded.userId = some user)
    (hmut : requiresCSRFProtection req.method = true)
    (hcsrf : csrfValidateRequest csrfSecret req user.id now = false) :
    withAuth jwtSecret csrfSecret users now handler req = csrfInvalidResponse := by
  simp [withAuth, hcookie, hver, huser, csrfMiddlewareValidate,
    csrfValidateOrSkip, hmut, hcsrf, csrfCreateValidationResponse]

/-- Claim C1 witness: the demo user with a valid session cookie sends a POST
with no anti-forgery header and receives the 403 CSRF_INVALID response. -/
theorem C1_witness :
    withAuth "jwt-secret" "csrf-secret" demoUsers 0 (fun _ => serverErrorResponse)
        ⟨"POST", some (.signed ⟨"1", 0, 10⟩ "jwt-secret"), none⟩ =
      csrfInvalidResponse :=
  C1_csrf_invalid_on_valid_session "jwt-secret" "csrf-secret" demoUsers 0
    (fun _ => serverErrorResponse)
    ⟨"POST", some (.signed ⟨"1", 0, 10⟩ "jwt-secret"), none⟩
    (.signed ⟨"1", 0, 10⟩ "jwt-secret") ⟨"1", 0, 10⟩ demoUser
    rfl (by decide) (by decide) (by decide) (by decide)

/-- Claim C8: for any request with a valid session and a safe method
(GET or HEAD), both request gates dispatch straight to the wrapped handler
with the resolved user — in particular under `withAuth` the CSRF validation
is skipped, so the result is `handler user` whatever the `x-csrf-token`
header holds (the request, including its `csrfHeader` component, is
universally quantified), and the goals GET endpoints wrapped in
`withAuthOnly` never inspect the header at all. -/
theorem C8_get_dispatches_without_csrf (jwtSecret csrfSecret : String)
    (users : List User) (now : Int) (handler : User → HttpResponse)
    (req : ApiRequest) (tok : SessionToken) (decoded : JWTPayload) (user : User)
    (hmethod : req.method = "GET" ∨ req.method = "HEAD")
    (hcookie : req.authCookie = some tok)
    (hver : verifyToken jwtSecret now tok = some decoded)
    (huser : getUserById users decoded.userId = some user) :
    withAuth jwtSecret csrfSecret users now handler req = handler user ∧
    withAuthOnly jwtSecret users now handler req = handler user := by
  have hsafe : requiresCSRFProtection req.method = false := by
    rcases hmethod with h | h <;> rw [h] <;> decide
  constructor
  · simp [withAuth, hcookie, hver, huser, csrfMiddlewareValidate,
      csrfValidateOrSkip, hsafe, csrfCreateValidationResponse]
  · simp [withAuthOnly, hcookie, hver, huser]

/-- Claim C8 witness: a GET by the demo user with a valid session and no
anti-forgery header reaches the handler through both gates. -/
theorem C8_witness :
    withAuth "jwt-secret" "csrf-secret" demoUsers 0 (fun _ => serverErrorResponse)
        ⟨"GET", some (.signed ⟨"1", 0, 10⟩ "jwt-secret"), none⟩ =
      serverErrorResponse ∧
    withAuthOnly "jwt-secret" demoUsers 0 (fun _ => serverErrorResponse)
        ⟨"GET", some (.signed ⟨"1", 0, 10⟩ "jwt-secret"), none⟩ =
      serverErrorResponse :=
  C8_get_dispatches_without_csrf "jwt-secret" "csrf-secret" demoUsers 0
    (fun _ => serverErrorResponse)
    ⟨"GET", some (.signed ⟨"1", 0, 10⟩ "jwt-secret"), none⟩
    (.signed ⟨"1", 0, 10⟩ "jwt-secret") ⟨"1", 0, 10⟩ demoUser
    (Or.inl rfl) rfl (by decide) (by decide)

/-- Claim C4: in BOTH route variants, a PUT or DELETE on /api/goals/[id] by
an authenticated user who does not own the goal is rejected — 403
ACCESS_DENIED in the validated variant, 404 "Goal not found" in the
params-based variant — with a constant error body that is independent of the
goal's contents (so it never contains the goal's data), and the goal
collection is returned unchanged.  The hypotheses `goalId ≠ ""` and
`goalId ≠ "route.ts"` hold for every goal the system can store: ids are the
seeded "1"/"2" or `Date.now().toString()` (a nonempty decimal string). -/
theorem C4_nonowner_rejected (user : User) (goals : List Goal)
    (goalId : String) (g : Goal) (b : UpdateBody)
    (hfind : getGoalById goals goalId = some g)
    (hown : g.userId ≠ user.id)
    (hid1 : goalId ≠ "") (hid2 : goalId ≠ "route.ts") :
    updateGoalHandler user goalId b goals =
      (⟨403, .errBody "Access denied. You can only update your own goals."
        "ACCESS_DENIED", jsonHdr, []⟩, goals) ∧
    deleteGoalHandler user goalId goals =
      (⟨403, .errBody "Access denied. You can only delete your own goals."
        "ACCESS_DENIED", jsonHdr, []⟩, goals) ∧
    updateGoalPUTParams user goalId b goals =
      (⟨404, .plainErr "Goal not found", jsonHdr, []⟩, goals) ∧
    deleteGoalDELETEParams user goalId goals =
      (⟨404, .plainErr "Goal not found", jsonHdr, []⟩, goals) := by
  refine ⟨?_, ?_, ?_, ?_⟩
  · simp [updateGoalHandler, hfind, hown, hid1, hid2]
  · simp [deleteGoalHandler, hfind, hown, hid1, hid2]
  · simp [updateGoalPUTParams, hfind, hown]
  · simp [deleteGoalDELETEParams, hfind, hown]

/-- Claim C4 witness: user "2" tries to update and delete the demo user's
goal "1"; all four handlers reject without touching the store. -/
theorem C4_witness :
    updateGoalHandler ⟨"2", "u2@example.com", "h2", "t"⟩ "1"
        { completedSteps := some 9 }
        [⟨"1", "1", "Daily Exercise", "", 100, 23, "#10B981", "t0"⟩] =
      (⟨403, .errBody "Access denied. You can only update your own goals."
        "ACCESS_DENIED", jsonHdr, []⟩,
       [⟨"1", "1", "Daily Exercise", "", 100, 23, "#10B981", "t0"⟩]) ∧
    deleteGoalHandler ⟨"2", "u2@example.com", "h2", "t"⟩ "1"
        [⟨"1", "1", "Daily Exercise", "", 100, 23, "#10B981", "t0"⟩] =
      (⟨403, .errBody "Access denied. You can only delete your own goals."
        "ACCESS_DENIED", jsonHdr, []⟩,
       [⟨"1", "1", "Daily Exercise", "", 100, 23, "#10B981", "t0"⟩]) ∧
    updateGoalPUTParams ⟨"2", "u2@example.com", "h2", "t"⟩ "1"
        { completedSteps := some 9 }
        [⟨"1", "1", "Daily Exercise", "", 100, 23, "#10B981", "t0"⟩] =
      (⟨404, .plainErr "Goal not found", jsonHdr, []⟩,
       [⟨"1", "1", "Daily Exercise", "", 100, 23, "#10B981", "t0"⟩]) ∧
    deleteGoalDELETEParams ⟨"2", "u2@example.com", "h2", "t"⟩ "1"
        [⟨"1", "1", "Daily Exercise", "", 100, 23, "#10B981", "t0"⟩] =
      (⟨404, .plainErr "Goal not found", jsonHdr, []⟩,
       [⟨"1", "1", "Daily Exercise", "", 100, 23, "#10B981", "t0"⟩]) :=
  C4_nonowner_rejected ⟨"2", "u2@example.com", "h2", "t"⟩
    [⟨"1", "1", "Daily Exercise", "", 100, 23, "#10B981", "t0"⟩] "1"
    ⟨"1", "1", "Daily Exercise", "", 100, 23, "#10B981", "t0"⟩
    { completedSteps := some 9 }
    (by decide) (by decide) (by decide) (by decide)

/-- Claim C6 (amended): a successful POST /api/auth/register (nonempty email
and password, email not already stored) returns status 201 with the created
user and a signed SESSION token in the response body; it sets no cookies and
issues no anti-forgery token.  (The cookie + anti-forgery contract lives in
`authHelpers.createAuthResponse`, which only the login route calls.) -/
theorem C6_register_token_body (jwtSecret : String) (now : Int)
    (users : List User) (email password newId createdAt : String)
    (hemail : email ≠ "") (hpw : password ≠ "")
    (hfresh : getUserByEmail users email = none) :
    registerPOST jwtSecret now users (some email) (some password) newId
        createdAt =
      (⟨201,
        .tokenUserBody (.signed ⟨newId, now, now + threeDaysMs⟩ jwtSecret)
          newId email, jsonHdr, []⟩,
       users ++ [⟨newId, email, bcryptHash password, createdAt⟩]) := by
  simp [registerPOST, jsTruthy, hemail, hpw, hfresh, createUser, generateToken]

/-- Claim C6 witness: registering a fresh email against the empty store. -/
theorem C6_witness :
    registerPOST "jwt-secret" 7 [] (some "new@example.com") (some "secret123")
        "42" "t0" =
      (⟨201,
        .tokenUserBody (.signed ⟨"42", 7, 7 + threeDaysMs⟩ "jwt-secret") "42"
          "new@example.com", jsonHdr, []⟩,
       [⟨"42", "new@example.com", bcryptHash "secret123", "t0"⟩]) :=
  C6_register_token_body "jwt-secret" 7 [] "new@example.com" "secret123" "42"
    "t0" (by decide) (by decide) (by decide)

/-- Claim C10: `goalUtils.createGoal` hard-codes `completedSteps: 0`, and
whenever `createGoalHandler` (POST /api/goals) answers 201 the goal it
appended to the store — the same one serialized in the response — has
`completedSteps = 0`, regardless of any `completedSteps` value in the
request body (which the handler never reads). -/
theorem C10_completed_steps_zero (user : User) (b : CreateGoalBody)
    (goals : List Goal) (goalData : CreateGoalData)
    (userId newId createdAt : String) :
    (createGoal goals userId goalData newId createdAt).1.completedSteps = 0 ∧
    ((createGoalHandler user b goals newId createdAt).1.status = 201 →
      ∃ g : Goal,
        (createGoalHandler user b goals newId createdAt).1.body = .goalBody g ∧
        (createGoalHandler user b goals newId createdAt).2 = goals ++ [g] ∧
        g.completedSteps = 0) := by
  constructor
  · simp [createGoal]
  · simp only [createGoalHandler]
    repeat' split
    all_goals intro h
    all_goals first
      | (revert h; simp [badRequest]; done)
      | (refine ⟨_, rfl, ?_, ?_⟩ <;> simp [createGoal])

/-- Claim C10 witness: a body supplying `completedSteps: 7` still yields a
201 whose created goal has `completedSteps = 0`. -/
theorem C10_witness :
    (createGoal [] "1" { totalSteps := some 10 } "7" "t").1.completedSteps = 0 ∧
    ∃ g : Goal,
      (createGoalHandler demoUser
          { title := some "Read", totalSteps := some 10, completedSteps := some 7 }
          [] "7" "t").1.body = .goalBody g ∧
      (createGoalHandler demoUser
          { title := some "Read", totalSteps := some 10, completedSteps := some 7 }
          [] "7" "t").2 = [] ++ [g] ∧
      g.completedSteps = 0 :=
  ⟨(C10_completed_steps_zero demoUser
      { title := some "Read", totalSteps := some 10, completedSteps := some 7 }
      [] { totalSteps := some 10 } "1" "7" "t").1,
   (C10_completed_steps_zero demoUser
      { title := some "Read", totalSteps := some 10, completedSteps := some 7 }
      [] { totalSteps := some 10 } "1" "7" "t").2 (by decide)⟩

/-- A first request from an address with no counter entry creates the
counter `⟨1, now + W⟩` and passes through to the handler. -/
theorem rateLimitStep_fresh (maxR : Nat) (W : Int) (ip : String) (now : Int)
    (r : HttpResponse) (hmax : 0 < maxR) :
    rateLimitStep maxR W ip now r [] =
      (addRateHeaders maxR ⟨1, now + W⟩ r, [(ip, ⟨1, now + W⟩)]) := by
  have hc : ¬ (maxR ≤ (0 : Nat) ∧ now < now + W) := by omega
  simp [rateLimitStep, cleanupExpired, lookupCounter, setCounter, hc]
  omega

/-- A request finding a live counter below the limit increments it and
passes through to the handler. -/
theorem rateLimitStep_passes (maxR k : Nat) (reset W : Int) (ip : String)
    (now : Int) (r : HttpResponse) (hk : k < maxR) (hkeep : ¬ reset < now) :
    rateLimitStep maxR W ip now r [(ip, ⟨k, reset⟩)] =
      (addRateHeaders maxR ⟨k + 1, reset⟩ r, [(ip, ⟨k + 1, reset⟩)]) := by
  have hfilter : cleanupExpired now [(ip, (⟨k, reset⟩ : RateCounter))] =
      [(ip, (⟨k, reset⟩ : RateCounter))] := by
    simp [cleanupExpired]
    omega
  have hc : ¬ (maxR ≤ k ∧ now < reset) := by omega
  simp [rateLimitStep, hfilter, lookupCounter, setCounter, hc]

/-- A request finding a live counter at or above the limit is answered with
the 429 response, for EVERY wrapped-handler response `r` (so the handler is
not invoked), and the state is left unchanged. -/
theorem rateLimitStep_blocked (maxR k : Nat) (reset W : Int) (ip : String)
    (now : Int) (r : HttpResponse) (hk : maxR ≤ k) (hnow : now < reset) :
    rateLimitStep maxR W ip now r [(ip, ⟨k, reset⟩)] =
      (rateLimitedResponse maxR ⟨k, reset⟩ now, [(ip, ⟨k, reset⟩)]) := by
  have hfilter : cleanupExpired now [(ip, (⟨k, reset⟩ : RateCounter))] =
      [(ip, (⟨k, reset⟩ : RateCounter))] := by
    simp [cleanupExpired]
    omega
  simp [rateLimitStep, hfilter, lookupCounter, hk, hnow]

/-- Claim C5: with the login route's settings `withRateLimit(5, 5*60*1000)`,
after five attempts from one source address (in particular five failed
logins — the counter counts every request) at times `t1 ≤ … ≤ t5`, a sixth
attempt at `t6` still inside the window that opened at `t1` is answered with
the constant 429 RATE_LIMIT_EXCEEDED response.  The sixth handler response
`r6` is universally quantified and absent from the result, so the wrapped
login handler is not invoked for the sixth request. -/
theorem C5_sixth_attempt_rate_limited (ip : String) (t1 t2 t3 t4 t5 t6 : Int)
    (r1 r2 r3 r4 r5 r6 : HttpResponse)
    (h12 : t1 ≤ t2) (h23 : t2 ≤ t3) (h34 : t3 ≤ t4) (h45 : t4 ≤ t5)
    (h56 : t5 ≤ t6) (hwin : t6 < t1 + 5 * 60 * 1000) :
    rateLimitStep 5 (5 * 60 * 1000) ip t6 r6
        (rateLimitStep 5 (5 * 60 * 1000) ip t5 r5
          (rateLimitStep 5 (5 * 60 * 1000) ip t4 r4
            (rateLimitStep 5 (5 * 60 * 1000) ip t3 r3
              (rateLimitStep 5 (5 * 60 * 1000) ip t2 r2
                (rateLimitStep 5 (5 * 60 * 1000) ip t1 r1 []).2).2).2).2).2 =
      (rateLimitedResponse 5 ⟨5, t1 + 5 * 60 * 1000⟩ t6,
        [(ip, ⟨5, t1 + 5 * 60 * 1000⟩)]) ∧
    (rateLimitedResponse 5 ⟨5, t1 + 5 * 60 * 1000⟩ t6).status = 429 ∧
    (rateLimitedResponse 5 ⟨5, t1 + 5 * 60 * 1000⟩ t6).body =
      .rateBody "Too many requests" "RATE_LIMIT_EXCEEDED"
        (ceilDivThousand (t1 + 5 * 60 * 1000 - t6)) := by
  refine ⟨?_, rfl, rfl⟩
  rw [rateLimitStep_fresh 5 (5 * 60 * 1000) ip t1 r1 (by norm_num)]
  rw [show (addRateHeaders 5 ⟨1, t1 + 5 * 60 * 1000⟩ r1,
        [(ip, (⟨1, t1 + 5 * 60 * 1000⟩ : RateCounter))]).2 =
      [(ip, (⟨1, t1 + 5 * 60 * 1000⟩ : RateCounter))] from rfl]
  rw [rateLimitStep_passes 5 1 (t1 + 5 * 60 * 1000) (5 * 60 * 1000) ip t2 r2
    (by norm_num) (by omega)]
  rw [show (addRateHeaders 5 ⟨2, t1 + 5 * 60 * 1000⟩ r2,
        [(ip, (⟨2, t1 + 5 * 60 * 1000⟩ : RateCounter))]).2 =
      [(ip, (⟨2, t1 + 5 * 60 * 1000⟩ : RateCounter))] from rfl]
  rw [rateLimitStep_passes 5 2 (t1 + 5 * 60 * 1000) (5 * 60 * 1000) ip t3 r3
    (by norm_num) (by omega)]
  rw [show (addRateHeaders 5 ⟨3, t1 + 5 * 60 * 1000⟩ r3,
        [(ip, (⟨3, t1 + 5 * 60 * 1000⟩ : RateCounter))]).2 =
      [(ip, (⟨3, t1 + 5 * 60 * 1000⟩ : RateCounter))] from rfl]
  rw [rateLimitStep_passes 5 3 (t1 + 5 * 60 * 1000) (5 * 60 * 1000) ip t4 r4
    (by norm_num) (by omega)]
  rw [show (addRateHeaders 5 ⟨4, t1 + 5 * 60 * 1000⟩ r4,
        [(ip, (⟨4, t1 + 5 * 60 * 1000⟩ : RateCounter))]).2 =
      [(ip, (⟨4, t1 + 5 * 60 * 1000⟩ : RateCounter))] from rfl]
  rw [rateLimitStep_passes 5 4 (t1 + 5 * 60 * 1000) (5 * 60 * 1000) ip t5 r5
    (by norm_num) (by omega)]
  rw [show (addRateHeaders 5 ⟨5, t1 + 5 * 60 * 1000⟩ r5,
        [(ip, (⟨5, t1 + 5 * 60 * 1000⟩ : RateCounter))]).2 =
      [(ip, (⟨5, t1 + 5 * 60 * 1000⟩ : RateCounter))] from rfl]
  exact rateLimitStep_blocked 5 5 (t1 + 5 * 60 * 1000) (5 * 60 * 1000) ip t6 r6
    (by norm_num) (by omega)

/-- Claim C5 witness: five attempts at time 0 and a sixth at time 1 from one
address; the sixth gets the 429 response with `Retry-After` 300 seconds. -/
theorem C5_witness :
    rateLimitStep 5 (5 * 60 * 1000) "203.0.113.9" 1 serverErrorResponse
        (rateLimitStep 5 (5 * 60 * 1000) "203.0.113.9" 0 serverErrorResponse
          (rateLimitStep 5 (5 * 60 * 1000) "203.0.113.9" 0 serverErrorResponse
            (rateLimitStep 5 (5 * 60 * 1000) "203.0.113.9" 0 serverErrorResponse
              (rateLimitStep 5 (5 * 60 * 1000) "203.0.113.9" 0 serverErrorResponse
                (rateLimitStep 5 (5 * 60 * 1000) "203.0.113.9" 0
                  serverErrorResponse []).2).2).2).2).2 =
      (rateLimitedResponse 5 ⟨5, 0 + 5 * 60 * 1000⟩ 1,
        [("203.0.113.9", ⟨5, 0 + 5 * 60 * 1000⟩)]) ∧
    (rateLimitedResponse 5 ⟨5, 0 + 5 * 60 * 1000⟩ 1).status = 429 ∧
    (rateLimitedResponse 5 ⟨5, 0 + 5 * 60 * 1000⟩ 1).body =
      .rateBody "Too many requests" "RATE_LIMIT_EXCEEDED"
        (ceilDivThousand (0 + 5 * 60 * 1000 - 1)) :=
  C5_sixth_attempt_rate_limited "203.0.113.9" 0 0 0 0 0 1
    serverErrorResponse serverErrorResponse serverErrorResponse
    serverErrorResponse serverErrorResponse serverErrorResponse
    (by norm_num) (by norm_num) (by norm_num) (by norm_num) (by norm_num)
    (by norm_num)

end Progressify
